import Mathlib

/-!
Shallow embedding of the CH34x WebUSB serial driver (src/index.ts) together
with proofs about its baud-rate encoder, register verification helper,
initialization sequence, read loop, and lifecycle methods.
-/

/-- Exact numeric value of a JavaScript number arising inside setBaudRate,
kept as an unreduced fraction num/den with positive denominator. Every value
reached in setBaudRate is either an exact integer or the exact quotient
1532620800 / baudRate; at these magnitudes (below 2^31) IEEE-754 double
rounding never moves a value across an integer boundary, because the
fractional part of the quotient is at least 1/baudRate, which is far above
the relative rounding error bound. Hence the exact-fraction model agrees
with the floating-point evaluation on every comparison, truncation and
bit operation the function performs. -/
structure JSNum where
  num : Int
  den : Nat
deriving DecidableEq

/-- JavaScript comparison q > c against an integer right operand. -/
def JSNum.gtInt (q : JSNum) (c : Int) : Bool := c * (q.den : Int) < q.num

/-- Truncation toward zero of the exact value (first half of ToInt32). -/
def JSNum.truncate (q : JSNum) : Int :=
  if 0 ≤ q.num then q.num / (q.den : Int) else -((-q.num) / (q.den : Int))

/-- JavaScript ToInt32: truncate toward zero, then wrap into the signed
32-bit range. Applied by the bitwise operators of setBaudRate. -/
def JSNum.toInt32 (q : JSNum) : Int :=
  let m := q.truncate % 4294967296
  if m < 2147483648 then m else m - 4294967296

/-- Arithmetic right shift by k bits, as performed by the JavaScript int32
shift operator on its ToInt32-converted operand: floor division by 2 ^ k. -/
def asr (n : Int) (k : Nat) : Int := Int.fdiv n (2 ^ k)

/-- The while loop of setBaudRate (src/index.ts lines 101-104): while
factor > 0xfff0 and divisor > 0, factor >>= 3 and divisor is decremented.
The recursion is on divisor, which the loop decrements whenever it runs;
the shift first converts the (possibly fractional) factor with ToInt32. -/
def baudLoop : JSNum → Nat → JSNum × Nat
  | f, 0 => (f, 0)
  | f, d + 1 =>
    if f.gtInt 0xfff0 then baudLoop ⟨asr f.toInt32 3, 1⟩ d else (f, d + 1)

/-- Number of iterations the while loop of setBaudRate executes. -/
def baudLoopCount : JSNum → Nat → Nat
  | _, 0 => 0
  | f, d + 1 =>
    if f.gtInt 0xfff0 then baudLoopCount ⟨asr f.toInt32 3, 1⟩ d + 1 else 0

/-- The shared tail of setBaudRate (src/index.ts lines 111-113): or the
0x0080 flag into the divisor and assemble the two register values with the
JavaScript bitwise operators (each applies ToInt32 to the factor). -/
def baudRegisterPair (factor : JSNum) (divisor0 : Int) : Int × Int :=
  let divisor := Int.lor divisor0 0x0080
  (Int.lor (Int.land factor.toInt32 0xff00) divisor, Int.land factor.toInt32 0xff)

/-- The branching part of setBaudRate (src/index.ts lines 93-110): the
921600 special case, the while loop, the UnsupportedBaudRate throw
(modelled as none) and the fold factor = 0x10000 - factor, which is exact
on the fraction representation. -/
def setBaudRateEnc (baudRate : Nat) : Option (JSNum × Int) :=
  if baudRate = 921600 then some (⟨0xf300, 1⟩, 7)
  else
    let fd := baudLoop ⟨1532620800, baudRate⟩ 3
    if fd.1.gtInt 0xfff0 then none
    else some (⟨0x10000 * (fd.1.den : Int) - fd.1.num, fd.1.den⟩, (fd.2 : Int))

/-- The register values computed by setBaudRate (src/index.ts lines 89-113).
none models the UnsupportedBaudRate throw; some (val1, val2) are the two
values subsequently written to REG_BAUD_FACTOR and REG_BAUD_OFFSET. -/
def setBaudRateVals (baudRate : Nat) : Option (Int × Int) :=
  (setBaudRateEnc baudRate).map fun p => baudRegisterPair p.1 p.2

/-- Modelled from the spec, section 4.1: the divisor/factor loop on the
integer factor, exactly as the spec words it. -/
def specBaudLoop : Nat → Nat → Nat × Nat
  | f, 0 => (f, 0)
  | f, d + 1 => if 0xfff0 < f then specBaudLoop (f >>> 3) d else (f, d + 1)

/-- Modelled from the spec, section 4.1: divisor is or-ed with 0x0080,
output register 1 is (factor AND 0xFF00) OR divisor, output register 2 is
factor AND 0x00FF. -/
def specRegisterPair (factor divisor0 : Nat) : Nat × Nat :=
  let divisor := divisor0 ||| 0x0080
  ((factor &&& 0xff00) ||| divisor, factor &&& 0xff)

/-- Modelled from the spec, section 4.1, exactly as worded: the factor
starts as floor(1532620800 / bitrate), the loop shifts it while it exceeds
0xFFF0, and the fold into 16 bits is 0x10000 minus the integer factor. -/
def specBaudEncode (b : Nat) : Option (Nat × Nat) :=
  if b = 921600 then some (specRegisterPair 0xf300 7)
  else
    let fd := specBaudLoop (1532620800 / b) 3
    if 0xfff0 < fd.1 then none
    else some (specRegisterPair (0x10000 - fd.1) fd.2)

/-- Ceiling division on naturals. -/
def ceilDiv (a b : Nat) : Nat := (a + b - 1) / b

/-- The spec algorithm amended to what the code computes: identical to
specBaudEncode except that, when the loop is never entered (the exact
quotient is at most 0xFFF0) the factor folded into 16 bits is the ceiling
of the exact quotient 1532620800 / bitrate rather than its floor, because
the code truncates only after the subtraction 0x10000 - factor. -/
def specBaudEncodeAmended (b : Nat) : Option (Nat × Nat) :=
  if b = 921600 then some (specRegisterPair 0xf300 7)
  else
    let f0 := 1532620800 / b
    let fd := specBaudLoop f0 3
    if 0xfff0 < fd.1 then none
    else
      let fUsed := if 0xfff0 < f0 then fd.1 else ceilDiv 1532620800 b
      some (specRegisterPair (0x10000 - fUsed) fd.2)

/-- View of a natural-number value pair as the integer value pair produced
by the code. -/
def natPairAsInt (o : Option (Nat × Nat)) : Option (Int × Int) :=
  o.map fun p => ((p.1 : Int), (p.2 : Int))

/-- Transfer status of a WebUSB control-in result. -/
inductive TransferStatus
  | ok
  | stall
  | babble
deriving DecidableEq

/-- A data buffer delivered by the transport: the object identity of its
underlying ArrayBuffer (a fresh object per transfer) and its bytes. -/
structure DataChunk where
  bufferId : Nat
  bytes : List Nat
deriving DecidableEq

/-- Result object of a resolved controlTransferIn. -/
structure InResult where
  status : TransferStatus
  data : Option DataChunk
deriving DecidableEq

/-- Outcome of an awaited controlTransferIn promise: resolved with a result
object, or rejected so that the await throws. -/
inductive TIn
  | resolved (r : InResult)
  | rejected (e : Nat)
deriving DecidableEq

/-- Errors observed by the open catch handler or by the caller of write. -/
inductive Err
  | transport (e : Nat)
  | unsupportedBaud (rate : Nat)
  | typeErrorNoInterface
  | noWriteEndpoint
deriving DecidableEq

/-- USB operations issued by the driver, recorded in program order. -/
inductive UsbAction
  | controlOut (request value index : Int)
  | controlIn (request value index length : Nat)
  | bulkInSubmit (endpointNum packetSize : Nat)
  | bulkOut (endpointNum : Nat) (byteLength : Nat)
deriving DecidableEq

/-- Events dispatched on the driver EventTarget. -/
inductive DriverEvent
  | ready
  | data (bytes : List Nat)
  | disconnected
  | error (e : Err)
deriving DecidableEq

/-- Bulk endpoint reference stored in the driver fields. -/
structure EndpointRef where
  num : Nat
  packetSize : Nat
deriving DecidableEq

/-- The mutable fields of a driver instance (src/index.ts lines 33-38). -/
structure DriverState where
  isClosing : Bool
  bitrate : Nat
  dtr : Bool
  rts : Bool
  readEndpoint : Option EndpointRef
  writeEndpoint : Option EndpointRef
deriving DecidableEq

/-- The constructor (src/index.ts lines 40-44): stores the requested baud
rate; the field initializers give the remaining defaults. -/
def initialState (baudRate : Nat) : DriverState :=
  { isClosing := false, bitrate := baudRate, dtr := true, rts := true,
    readEndpoint := none, writeEndpoint := none }

/-- The comparison checkState performs on a resolved controlTransferIn
result (src/index.ts lines 72-85): reply status, then reply byte length
against the expected byteLength, then (line 80) the reply DataView buffer
object against the caller-supplied expected array with the JavaScript
strict inequality operator, which compares object identity, modelled with
buffer ids. The byte contents are never inspected. -/
def checkStateCompare (expected : DataChunk) (result : InResult) : Bool :=
  if result.status ≠ TransferStatus.ok then false
  else
    match result.data with
    | none => false
    | some d =>
      if d.bytes.length ≠ expected.bytes.length then false
      else if d.bufferId ≠ expected.bufferId then false
      else true

/-- JavaScript bitwise NOT of an int32 value. -/
def jsBitNot (n : Int) : Int := -(n + 1)

/-- Value sent by setControlLines (src/index.ts line 237): the bitwise
complement of the active control-line mask SCL_DTR = 0x20, SCL_RTS = 0x40. -/
def controlLinesValue (dtr rts : Bool) : Int :=
  jsBitNot (Int.lor (if dtr then 0x20 else 0) (if rts then 0x40 else 0))

/-- The action issued by setControlLines (src/index.ts lines 236-238); the
request byte is REG_MODEM_CTRL = 0xA4 and the index is 0. -/
def setControlLinesAction (st : DriverState) : UsbAction :=
  UsbAction.controlOut 0xA4 (controlLinesValue st.dtr st.rts) 0

/-- The two register writes performed by setBaudRate after computing the
values (src/index.ts lines 115-116), or the UnsupportedBaudRate throw
before any write; vendorOut catches its own rejections, so the writes
themselves never throw. -/
def setBaudActions (baudRate : Nat) : List UsbAction × Except Err Unit :=
  match setBaudRateVals baudRate with
  | none => ([], Except.error (Err.unsupportedBaud baudRate))
  | some v =>
    ([UsbAction.controlOut 0x9A 0x1312 v.1, UsbAction.controlOut 0x9A 0x0F2C v.2],
      Except.ok ())

/-- The setBaudRate method as invoked on an instance: the state parameter
mirrors the this reference; the method reads none of its mutable fields. -/
def setBaudRateRun (_st : DriverState) (baudRate : Nat) :
    List UsbAction × Except Err Unit :=
  setBaudActions baudRate

/-- Expected arrays constructed by init (new Uint8Array literals;
JavaScript wraps -1 to byte 255). Each is a fresh object, so its identity
differs from every reply buffer; the ids here are arbitrary because the
comparison result is discarded. -/
def initExpected1 : DataChunk := ⟨1001, [255, 0]⟩

/-- Expected array of the init 4 read. -/
def initExpected4 : DataChunk := ⟨1002, [255, 0]⟩

/-- Expected array of the init 6 read. -/
def initExpected6 : DataChunk := ⟨1003, [255, 255]⟩

/-- Expected array of the init 10 read. -/
def initExpected10 : DataChunk := ⟨1004, [255, 255]⟩

/-- The init sequence (src/index.ts lines 240-257) as a trace: the USB
operations issued in order and the overall outcome. env k is the outcome
of the k-th awaited controlTransferIn; a rejection there propagates and
aborts the remainder. vendorOut operations never throw. The boolean each
checkState returns is computed and then discarded, exactly as the source
discards the awaited value. -/
def runInit (dtr rts : Bool) (env : Nat → TIn) : List UsbAction × Except Err Unit :=
  let a1 := UsbAction.controlIn 0x5F 0 0 initExpected1.bytes.length
  match env 0 with
  | TIn.rejected e => ([a1], Except.error (Err.transport e))
  | TIn.resolved r1 =>
    let _c1 := checkStateCompare initExpected1 r1
    let a2 := UsbAction.controlOut 0xA1 0 0
    match setBaudActions 9600 with
    | (bauds1, Except.error e) => ([a1, a2] ++ bauds1, Except.error e)
    | (bauds1, Except.ok _) =>
      let a4 := UsbAction.controlIn 0x95 0x2518 0 initExpected4.bytes.length
      match env 1 with
      | TIn.rejected e => ([a1, a2] ++ bauds1 ++ [a4], Except.error (Err.transport e))
      | TIn.resolved r4 =>
        let _c4 := checkStateCompare initExpected4 r4
        let a5 := UsbAction.controlOut 0x9A 0x2518 0xC3
        let a6 := UsbAction.controlIn 0x95 0x0706 0 initExpected6.bytes.length
        match env 2 with
        | TIn.rejected e =>
            ([a1, a2] ++ bauds1 ++ [a4, a5, a6], Except.error (Err.transport e))
        | TIn.resolved r6 =>
          let _c6 := checkStateCompare initExpected6 r6
          let a7 := UsbAction.controlOut 0xA1 0x501F 0xD90A
          match setBaudActions 9600 with
          | (bauds2, Except.error e) =>
              ([a1, a2] ++ bauds1 ++ [a4, a5, a6, a7] ++ bauds2, Except.error e)
          | (bauds2, Except.ok _) =>
            let a9 := UsbAction.controlOut 0xA4 (controlLinesValue dtr rts) 0
            let a10 := UsbAction.controlIn 0x95 0x0706 0 initExpected10.bytes.length
            match env 3 with
            | TIn.rejected e =>
                ([a1, a2] ++ bauds1 ++ [a4, a5, a6, a7] ++ bauds2 ++ [a9, a10],
                  Except.error (Err.transport e))
            | TIn.resolved r10 =>
              let _c10 := checkStateCompare initExpected10 r10
              ([a1, a2] ++ bauds1 ++ [a4, a5, a6, a7] ++ bauds2 ++ [a9, a10],
                Except.ok ())

/-- Direction of an endpoint descriptor (WebUSB exposes in or out). -/
inductive EpDirection
  | dirIn
  | dirOut
deriving DecidableEq

/-- Endpoint descriptor of the claimed interface alternate. -/
structure EndpointDesc where
  num : Nat
  packetSize : Nat
  direction : EpDirection
  isBulk : Bool
deriving DecidableEq

/-- The forEach classification of endpoints (src/index.ts lines 136-152):
bulk endpoints are assigned by direction with later descriptors
overwriting earlier ones; non-bulk endpoints are ignored. -/
def discoverEndpoints (eps : List EndpointDesc) :
    Option EndpointRef × Option EndpointRef :=
  eps.foldl
    (fun acc ep =>
      if ep.isBulk then
        match ep.direction with
        | EpDirection.dirIn => (some ⟨ep.num, ep.packetSize⟩, acc.2)
        | EpDirection.dirOut => (acc.1, some ⟨ep.num, ep.packetSize⟩)
      else acc)
    (none, none)

/-- Outcomes of the transport promises one run of open() awaits. -/
structure OpenEnv where
  openRejects : Option Nat
  hasInterfaces : Bool
  endpoints : List EndpointDesc
  initEnv : Nat → TIn
  closeRejects : Option Nat

/-- close() (src/index.ts lines 203-219): sets isClosing, dispatches a
disconnected event immediately, then after the grace delay releases the
interface and closes the device; a release/close rejection is surfaced to
the caller of close. -/
def closeRun (st : DriverState) (closeRejects : Option Nat) :
    DriverState × List DriverEvent × Except Err Unit :=
  let st1 := { st with isClosing := true }
  match closeRejects with
  | some e => (st1, [DriverEvent.disconnected], Except.error (Err.transport e))
  | none => (st1, [DriverEvent.disconnected], Except.ok ())

/-- The part of readLoop that open() awaits (src/index.ts lines 169-176):
the missing-endpoint guard, which awaits close(), and the submission of
the first bulk-in transfer sized to the endpoint packetSize. The
then/catch/finally continuation is detached and settles after open has
moved on; it is modelled separately as readCycle. -/
def readLoopStart (st : DriverState) (closeRejects : Option Nat) :
    DriverState × List UsbAction × List DriverEvent × Except Err Unit :=
  match st.readEndpoint with
  | none =>
    match closeRun st closeRejects with
    | (st1, evs, r) => (st1, [], evs, r)
  | some ep => (st, [UsbAction.bulkInSubmit ep.num ep.packetSize], [], Except.ok ())

/-- The async body of open() (src/index.ts lines 120-160), which runs the
steps sequentially: open the device, claim every interface (rejections are
caught per interface on lines 127-131 and never abort), take the last
interface (reading .alternate of undefined throws a TypeError when the
interface list is empty), classify its endpoints, run init, apply the
constructor-requested baud rate, clear isClosing, and await readLoop. -/
def openBody (st : DriverState) (env : OpenEnv) :
    DriverState × List UsbAction × List DriverEvent × Except Err Unit :=
  match env.openRejects with
  | some e => (st, [], [], Except.error (Err.transport e))
  | none =>
    if env.hasInterfaces then
      let eps := discoverEndpoints env.endpoints
      let st1 := { st with readEndpoint := eps.1, writeEndpoint := eps.2 }
      match runInit st1.dtr st1.rts env.initEnv with
      | (acts1, Except.error e) => (st1, acts1, [], Except.error e)
      | (acts1, Except.ok _) =>
        match setBaudActions st1.bitrate with
        | (acts2, Except.error e) => (st1, acts1 ++ acts2, [], Except.error e)
        | (acts2, Except.ok _) =>
          let st2 := { st1 with isClosing := false }
          match readLoopStart st2 env.closeRejects with
          | (st3, acts3, evs3, r) => (st3, acts1 ++ acts2 ++ acts3, evs3, r)
    else (st, [], [], Except.error Err.typeErrorNoInterface)

/-- open() (src/index.ts lines 119-167): the body runs inside an async
closure whose catch dispatches a single error event carrying the thrown
detail; a successful body ends by dispatching ready (line 160). -/
def openRun (st : DriverState) (env : OpenEnv) :
    DriverState × List UsbAction × List DriverEvent :=
  match openBody st env with
  | (st1, acts, evs, Except.ok _) => (st1, acts, evs ++ [DriverEvent.ready])
  | (st1, acts, evs, Except.error e) => (st1, acts, evs ++ [DriverEvent.error e])

/-- The marker substring tested by the readLoop error handler. -/
def noDeviceMarker : List Char := "LIBUSB_TRANSFER_NO_DEVICE".toList

/-- Whether pat occurs at the start of s. -/
def leadsWith : List Char → List Char → Bool
  | [], _ => true
  | _ :: _, [] => false
  | p :: ps, c :: cs => p = c && leadsWith ps cs

/-- Scan for pat in the remaining suffix, reporting the absolute index. -/
def jsIndexOfFrom (pat : List Char) : List Char → Nat → Int
  | [], i => if leadsWith pat [] then (i : Int) else -1
  | c :: rest, i =>
    if leadsWith pat (c :: rest) then (i : Int)
    else jsIndexOfFrom pat rest (i + 1)

/-- JavaScript String.indexOf: index of the first occurrence of pat in s,
or -1 when absent. -/
def jsIndexOf (s pat : List Char) : Int := jsIndexOfFrom pat s 0

/-- Outcome of one bulk-in transfer awaited by the readLoop chain. -/
inductive CycleOutcome
  | resolved (data : Option DataChunk)
  | rejected (msg : List Char)

/-- The readLoop catch handler (src/index.ts lines 187-195). The condition
is the raw number returned by indexOf, so JavaScript truthiness takes the
disconnected branch exactly when indexOf is nonzero, that is when the
message does not start with the marker; only then is a disconnected event
dispatched and isClosing set. -/
def handleReadFailure (st : DriverState) (msg : List Char) :
    DriverState × List DriverEvent :=
  if jsIndexOf msg noDeviceMarker ≠ 0 then
    ({ st with isClosing := true }, [DriverEvent.disconnected])
  else (st, [])

/-- One settled readLoop cycle (src/index.ts lines 176-195): the then
handler dispatches a data event with a copy of the bytes when the payload
is present and nonempty; the catch handler classifies the failure. -/
def readCycle (st : DriverState) (out : CycleOutcome) :
    DriverState × List DriverEvent :=
  match out with
  | CycleOutcome.resolved d =>
    match d with
    | some c => if c.bytes.length ≠ 0 then (st, [DriverEvent.data c.bytes]) else (st, [])
    | none => (st, [])
  | CycleOutcome.rejected msg => handleReadFailure st msg

/-- The resubmission condition of the finally handler (src/index.ts
lines 196-200). -/
def resubmits (st : DriverState) (opened : Bool) : Bool :=
  !st.isClosing && opened

/-- The readLoop cycle chain with fuel bounding the number of settled
cycles: entering the chain corresponds to one submitted bulk-in transfer;
after the k-th outcome is handled, the finally handler re-invokes readLoop
exactly when the resubmission condition holds on the updated state.
Returns the dispatched events and the number of transfers submitted. -/
def readLoopChain (opened : Bool) (env : Nat → CycleOutcome) :
    Nat → DriverState → Nat → List DriverEvent × Nat
  | 0, _, _ => ([], 0)
  | fuel + 1, st, k =>
    let c := readCycle st (env k)
    if resubmits c.1 opened then
      let rest := readLoopChain opened env fuel c.1 (k + 1)
      (c.2 ++ rest.1, 1 + rest.2)
    else (c.2, 1)

/-- Result object with which a successful write resolves. -/
structure OutTransferResult where
  ok : Bool
  bytesWritten : Nat
deriving DecidableEq

/-- write() (src/index.ts lines 221-234): without a write endpoint the
promise rejects immediately and no transfer is issued; otherwise exactly
one bulk-out transfer is issued and the promise settles with it, resolving
with status ok and bytesWritten equal to the input byteLength. -/
def writeRun (st : DriverState) (byteLength : Nat) (transfer : Except Nat Unit) :
    List UsbAction × Except Err OutTransferResult :=
  match st.writeEndpoint with
  | none => ([], Except.error Err.noWriteEndpoint)
  | some ep =>
    match transfer with
    | Except.ok _ =>
        ([UsbAction.bulkOut ep.num byteLength], Except.ok ⟨true, byteLength⟩)
    | Except.error e =>
        ([UsbAction.bulkOut ep.num byteLength], Except.error (Err.transport e))

/-- One externally triggered driver activity together with the transport
outcomes it consumes. -/
inductive MethodCall
  | openCall (env : OpenEnv)
  | cycleCall (out : CycleOutcome)
  | closeCall (closeRejects : Option Nat)
  | writeCall (byteLength : Nat) (transfer : Except Nat Unit)
  | setBaudCall (rate : Nat)
  | setLinesCall

/-- The state transition of each method, collected from the models above:
open assigns endpoints and isClosing, a read cycle may set isClosing,
close sets isClosing; write, setBaudRate and setControlLines assign no
field, matching the source, where those methods contain no assignment to
this. -/
def applyCall (st : DriverState) : MethodCall → DriverState
  | MethodCall.openCall env => (openRun st env).1
  | MethodCall.cycleCall out => (readCycle st out).1
  | MethodCall.closeCall cr => (closeRun st cr).1
  | MethodCall.writeCall _ _ => st
  | MethodCall.setBaudCall _ => st
  | MethodCall.setLinesCall => st

/-- Whether an awaited controlTransferIn resolved rather than rejected. -/
def TIn.isResolved : TIn → Bool
  | TIn.resolved _ => true
  | TIn.rejected _ => false

/-- The fixed operation list of the init sequence, grouped by the ten
steps of spec section 4.3; steps 3 and 8 each contribute the two register
writes of the 9600 baud encoding (values 0xB282 and 0x0C). -/
def initActionList (dtr rts : Bool) : List UsbAction :=
  [UsbAction.controlIn 0x5F 0 0 2,
   UsbAction.controlOut 0xA1 0 0,
   UsbAction.controlOut 0x9A 0x1312 0xB282,
   UsbAction.controlOut 0x9A 0x0F2C 0x0C,
   UsbAction.controlIn 0x95 0x2518 0 2,
   UsbAction.controlOut 0x9A 0x2518 0xC3,
   UsbAction.controlIn 0x95 0x0706 0 2,
   UsbAction.controlOut 0xA1 0x501F 0xD90A,
   UsbAction.controlOut 0x9A 0x1312 0xB282,
   UsbAction.controlOut 0x9A 0x0F2C 0x0C,
   UsbAction.controlOut 0xA4 (controlLinesValue dtr rts) 0,
   UsbAction.controlIn 0x95 0x0706 0 2]

/-- An open environment where every transport promise resolves. -/
def witnessOpenEnv : OpenEnv :=
  { openRejects := none, hasInterfaces := true,
    endpoints := [⟨1, 32, EpDirection.dirIn, true⟩, ⟨2, 32, EpDirection.dirOut, true⟩],
    initEnv := fun _ => TIn.resolved ⟨TransferStatus.ok, some ⟨0, [0, 0]⟩⟩,
    closeRejects := none }

lemma specBaudLoop_fst_le (d : Nat) : ∀ m, (specBaudLoop m d).1 ≤ m := by
  induction d with
  | zero => intro m; simp [specBaudLoop]
  | succ d ih =>
    intro m
    rw [specBaudLoop]
    by_cases h : 0xfff0 < m
    · rw [if_pos h]
      exact Nat.le_trans (ih _) (by rw [Nat.shiftRight_eq_div_pow]; exact Nat.div_le_self _ _)
    · rw [if_neg h]

lemma asr_ofNat (m : Nat) : asr (m : Int) 3 = ((m / 8 : Nat) : Int) := by
  cases m with
  | zero => rfl
  | succ n => rfl

lemma gtInt_ofNat (f : Nat) : JSNum.gtInt ⟨(f : Int), 1⟩ 65520 = decide (65520 < f) := by
  simp only [JSNum.gtInt]
  rw [decide_eq_decide]
  push_cast
  omega

lemma truncate_natFrac (n b : Nat) :
    JSNum.truncate ⟨(n : Int), b⟩ = ((n / b : Nat) : Int) := by
  simp [JSNum.truncate, Int.natCast_div]

lemma toInt32_natFrac (n b : Nat) (hn : n / b < 2147483648) :
    JSNum.toInt32 ⟨(n : Int), b⟩ = ((n / b : Nat) : Int) := by
  simp only [JSNum.toInt32, truncate_natFrac]
  rw [Int.emod_eq_of_lt (by positivity) (by push_cast; omega)]
  rw [if_pos (by push_cast; omega)]

lemma baudLoop_ofNat (d : Nat) : ∀ m : Nat, m < 2147483648 →
    baudLoop ⟨(m : Int), 1⟩ d =
      (⟨((specBaudLoop m d).1 : Int), 1⟩, (specBaudLoop m d).2) := by
  induction d with
  | zero => intro m _; simp [baudLoop, specBaudLoop]
  | succ d ih =>
    intro m hm
    rw [baudLoop, specBaudLoop]
    by_cases hgt : 0xfff0 < m
    · rw [gtInt_ofNat, if_pos (by simpa using hgt), if_pos hgt]
      rw [toInt32_natFrac m 1 (by simpa using hm)]
      simp only [Nat.div_one]
      rw [asr_ofNat, Nat.shiftRight_eq_div_pow]
      exact ih (m / 2 ^ 3) (Nat.lt_of_le_of_lt (Nat.div_le_self _ _) hm)
    · rw [gtInt_ofNat, if_neg (by simpa using hgt), if_neg hgt]

lemma entry_cmp (b : Nat) (hb : 0 < b) :
    65520 * b < 1532620800 ↔ 65520 < 1532620800 / b := by
  constructor
  · intro hlt
    have h1 : 65521 * b ≤ 1532620800 := by omega
    have h2 := (Nat.le_div_iff_mul_le hb).mpr h1
    omega
  · intro hlt
    have h1 : 65521 ≤ 1532620800 / b := by omega
    have h2 := (Nat.le_div_iff_mul_le hb).mp h1
    omega

lemma gtInt_init (b : Nat) :
    JSNum.gtInt ⟨1532620800, b⟩ 0xfff0 = decide (65520 * b < 1532620800) := by
  simp [JSNum.gtInt]
  omega

lemma sub_div_eq_ceil (b n : Nat) (hb : 0 < b) (hle : n ≤ 65520 * b) :
    (65536 * b - n) / b = 65536 - ceilDiv n b := by
  have hmod := Nat.div_add_mod n b
  set k := n / b with hk
  set r := n % b with hr
  have hrb : r < b := Nat.mod_lt n hb
  have hk65 : k ≤ 65520 := by
    have h1 : n / b ≤ 65520 * b / b := Nat.div_le_div_right hle
    rwa [Nat.mul_comm 65520 b, Nat.mul_div_cancel_left _ hb] at h1
  rcases Nat.eq_zero_or_pos r with hr0 | hrpos
  · -- exact division: n = b * k
    have hn : n = b * k := by omega
    have hnum : 65536 * b - n = b * (65536 - k) := by
      rw [Nat.mul_sub_left_distrib]
      omega
    have hceil : ceilDiv n b = k := by
      rw [ceilDiv, hn]
      have harr : b * k + b - 1 = b * k + (b - 1) := by omega
      rw [harr, Nat.mul_add_div hb, Nat.div_eq_of_lt (by omega)]
      omega
    rw [hnum, Nat.mul_div_cancel_left _ hb, hceil]
  · -- inexact division: n = b * k + r with 0 < r < b
    have hn : n = b * k + r := by omega
    have hklt : k ≤ 65519 := by
      rcases Nat.lt_or_ge k 65520 with h | h
      · omega
      · exfalso
        have hkeq : k = 65520 := by omega
        have : n = b * 65520 + r := by rw [hn, hkeq]
        omega
    have hble : b * k ≤ b * 65519 := Nat.mul_le_mul_left b hklt
    have hnum : 65536 * b - n = b * (65535 - k) + (b - r) := by
      rw [Nat.mul_sub_left_distrib]
      omega
    have hceil : ceilDiv n b = k + 1 := by
      rw [ceilDiv, hn]
      have harr : b * k + r + b - 1 = b * (k + 1) + (r - 1) := by
        rw [Nat.mul_add]
        omega
      rw [harr, Nat.mul_add_div hb, Nat.div_eq_of_lt (by omega)]
    rw [hnum, hceil, Nat.mul_add_div hb, Nat.div_eq_of_lt (by omega)]
    omega

lemma baudLoop_succ (f : JSNum) (d : Nat) :
    baudLoop f (d + 1) =
      if f.gtInt 0xfff0 then baudLoop ⟨asr f.toInt32 3, 1⟩ d else (f, d + 1) := rfl

lemma specBaudLoop_succ (f d : Nat) :
    specBaudLoop f (d + 1) =
      if 0xfff0 < f then specBaudLoop (f >>> 3) d else (f, d + 1) := rfl

lemma baudLoop_entered (b : Nat) (hb : 0 < b) (h : 65520 * b < 1532620800) (d : Nat) :
    baudLoop ⟨1532620800, b⟩ (d + 1) =
      (⟨((specBaudLoop (1532620800 / b) (d + 1)).1 : Int), 1⟩,
        (specBaudLoop (1532620800 / b) (d + 1)).2) := by
  have hq : 65520 < 1532620800 / b := (entry_cmp b hb).mp h
  rw [baudLoop_succ, specBaudLoop_succ, gtInt_init,
    if_pos (decide_eq_true h), if_pos hq]
  rw [show (1532620800 : Int) = ((1532620800 : Nat) : Int) from by norm_num]
  rw [toInt32_natFrac 1532620800 b
    (Nat.lt_of_le_of_lt (Nat.div_le_self _ _) (by norm_num))]
  rw [asr_ofNat, Nat.shiftRight_eq_div_pow]
  have h8 : (2 : Nat) ^ 3 = 8 := by norm_num
  rw [h8]
  exact baudLoop_ofNat d _
    (Nat.lt_of_le_of_lt (Nat.div_le_self _ _)
      (Nat.lt_of_le_of_lt (Nat.div_le_self _ _) (by norm_num)))

lemma baudLoop_entered3 (b : Nat) (hb : 0 < b) (h : 65520 * b < 1532620800) :
    baudLoop ⟨1532620800, b⟩ 3 =
      (⟨((specBaudLoop (1532620800 / b) 3).1 : Int), 1⟩,
        (specBaudLoop (1532620800 / b) 3).2) :=
  baudLoop_entered b hb h 2

lemma baudLoop_stays (b : Nat) (h : ¬ 65520 * b < 1532620800) (d : Nat) :
    baudLoop ⟨1532620800, b⟩ (d + 1) = (⟨1532620800, b⟩, d + 1) := by
  rw [baudLoop_succ, gtInt_init, if_neg (by simpa using h)]

lemma baudLoop_stays3 (b : Nat) (h : ¬ 65520 * b < 1532620800) :
    baudLoop ⟨1532620800, b⟩ 3 = (⟨1532620800, b⟩, 3) :=
  baudLoop_stays b h 2

lemma specBaudLoop_stays (q d : Nat) (h : ¬ 0xfff0 < q) :
    specBaudLoop q (d + 1) = (q, d + 1) := by
  rw [specBaudLoop_succ, if_neg h]

lemma specBaudLoop_stays3 (q : Nat) (h : ¬ 0xfff0 < q) :
    specBaudLoop q 3 = (q, 3) :=
  specBaudLoop_stays q 2 h

lemma land_cast_ff00 (a : Nat) : Int.land (a : Int) 0xff00 = ((a &&& 0xff00 : Nat) : Int) := rfl

lemma land_cast_ff (a : Nat) : Int.land (a : Int) 0xff = ((a &&& 0xff : Nat) : Int) := rfl

lemma lor_cast_80 (a : Nat) : Int.lor (a : Int) 0x0080 = ((a ||| 0x0080 : Nat) : Int) := rfl

lemma lor_cast (a b : Nat) : Int.lor (a : Int) (b : Int) = ((a ||| b : Nat) : Int) := rfl

lemma cast_sub_of_le (a c : Nat) (h : c ≤ a) : ((a - c : Nat) : Int) = (a : Int) - (c : Int) := by
  push_cast [Nat.cast_sub h]
  ring

lemma registerPair_frac (n b d : Nat) (h : n / b ≤ 65536) :
    baudRegisterPair ⟨(n : Int), b⟩ ((d : Nat) : Int) =
      (((specRegisterPair (n / b) d).1 : Int), ((specRegisterPair (n / b) d).2 : Int)) := by
  simp only [baudRegisterPair, specRegisterPair]
  rw [toInt32_natFrac n b (by omega)]
  rw [land_cast_ff00, land_cast_ff, lor_cast_80, lor_cast]

lemma setBaudRateEnc_entered (b : Nat) (hb : 0 < b) (h921 : ¬ b = 921600)
    (hent : 65520 * b < 1532620800) :
    setBaudRateEnc b =
      (if 65520 < (specBaudLoop (1532620800 / b) 3).1 then none
       else some (⟨(((65536 - (specBaudLoop (1532620800 / b) 3).1 : Nat)) : Int), 1⟩,
         ((specBaudLoop (1532620800 / b) 3).2 : Int))) := by
  rw [setBaudRateEnc, if_neg h921]
  dsimp only
  rw [baudLoop_entered3 b hb hent]
  dsimp only
  rw [gtInt_ofNat]
  by_cases hf : 65520 < (specBaudLoop (1532620800 / b) 3).1
  · rw [if_pos (decide_eq_true hf), if_pos hf]
  · rw [if_neg (by simpa using hf), if_neg hf]
    have hle16 : (specBaudLoop (1532620800 / b) 3).1 ≤ 65536 := by omega
    rw [cast_sub_of_le _ _ hle16]
    push_cast
    norm_num

lemma setBaudRateEnc_stays (b : Nat) (h921 : ¬ b = 921600)
    (hent : ¬ 65520 * b < 1532620800) :
    setBaudRateEnc b =
      some (⟨((65536 * b - 1532620800 : Nat) : Int), b⟩, ((3 : Nat) : Int)) := by
  rw [setBaudRateEnc, if_neg h921]
  dsimp only
  rw [baudLoop_stays3 b hent]
  dsimp only
  rw [gtInt_init, if_neg (by simpa using hent)]
  have hle2 : 1532620800 ≤ 65536 * b := by omega
  rw [cast_sub_of_le _ _ hle2]
  push_cast
  norm_num

lemma specBaudEncodeAmended_entered (b : Nat) (hb : 0 < b) (h921 : ¬ b = 921600)
    (hent : 65520 * b < 1532620800) :
    specBaudEncodeAmended b =
      (if 65520 < (specBaudLoop (1532620800 / b) 3).1 then none
       else some (specRegisterPair (65536 - (specBaudLoop (1532620800 / b) 3).1)
         (specBaudLoop (1532620800 / b) 3).2)) := by
  rw [specBaudEncodeAmended, if_neg h921]
  dsimp only
  have hq : 65520 < 1532620800 / b := (entry_cmp b hb).mp hent
  rw [if_pos hq]

lemma specBaudEncodeAmended_stays (b : Nat) (hb : 0 < b) (h921 : ¬ b = 921600)
    (hent : ¬ 65520 * b < 1532620800) :
    specBaudEncodeAmended b =
      some (specRegisterPair (65536 - ceilDiv 1532620800 b) 3) := by
  rw [specBaudEncodeAmended, if_neg h921]
  dsimp only
  have hq : ¬ 65520 < 1532620800 / b := fun h => hent ((entry_cmp b hb).mpr h)
  rw [specBaudLoop_stays3 _ hq]
  dsimp only
  rw [if_neg hq, if_neg hq]

theorem baud_encoder_follows_amended_spec (b : Nat) (hb : 0 < b) :
    setBaudRateVals b = natPairAsInt (specBaudEncodeAmended b) := by
  by_cases h921 : b = 921600
  · subst h921
    decide
  · by_cases hent : 65520 * b < 1532620800
    · rw [setBaudRateVals, setBaudRateEnc_entered b hb h921 hent,
        specBaudEncodeAmended_entered b hb h921 hent]
      by_cases hf : 65520 < (specBaudLoop (1532620800 / b) 3).1
      · rw [if_pos hf, if_pos hf]
        rfl
      · rw [if_neg hf, if_neg hf]
        simp only [natPairAsInt, Option.map_some']
        have h1 : (65536 - (specBaudLoop (1532620800 / b) 3).1) / 1 ≤ 65536 := by
          simp only [Nat.div_one]
          omega
        have h2 := registerPair_frac (65536 - (specBaudLoop (1532620800 / b) 3).1) 1
          (specBaudLoop (1532620800 / b) 3).2 h1
        simp only [Nat.div_one] at h2
        rw [h2]
    · rw [setBaudRateVals, setBaudRateEnc_stays b h921 hent,
        specBaudEncodeAmended_stays b hb h921 hent]
      simp only [natPairAsInt, Option.map_some']
      have hle : 1532620800 ≤ 65520 * b := by omega
      have hdivle : (65536 * b - 1532620800) / b ≤ 65536 := by
        have h1 : (65536 * b - 1532620800) / b ≤ b * 65536 / b := by
          rw [Nat.mul_comm b 65536]
          exact Nat.div_le_div_right (Nat.sub_le _ _)
        have h2 : b * 65536 / b = 65536 := Nat.mul_div_cancel_left 65536 hb
        omega
      have h2 := registerPair_frac (65536 * b - 1532620800) b 3 hdivle
      rw [sub_div_eq_ceil b 1532620800 hb hle] at h2
      rw [h2]

/-- Claim C1 (amended): for every positive bitrate the encoder follows the
spec algorithm except that, whenever the while loop is never entered and
the quotient 1532620800 / bitrate is not an integer, the factor folded
into 16 bits is the ceiling of the quotient rather than its floor, because
the code divides in floating point and truncates only after the
subtraction 0x10000 - factor; the special case 921600, the loop, the
failure condition and the output assembly are exactly as the spec states. -/
theorem baud_encoder_amended (b : Nat) (hb : 0 < b) :
    setBaudRateVals b = natPairAsInt (specBaudEncodeAmended b) :=
  baud_encoder_follows_amended_spec b hb

/-- Witness for the amended claim C1 at the concrete bitrate 30000. -/
theorem baud_encoder_amended_witness :
    0 < 30000 ∧ setBaudRateVals 30000 = natPairAsInt (specBaudEncodeAmended 30000) :=
  ⟨by decide, baud_encoder_amended 30000 (by decide)⟩

/-- Counterexample for claim C1 as stated: at bitrate 30000 (whose exact
quotient 51087.36 is below 0xFFF0, so the loop never runs) the code
computes register value 2 = 0x70 while the floor-based spec algorithm
computes 0x71; register value 1 agrees. -/
theorem baud_encoder_spec_counterexample :
    setBaudRateVals 30000 = some (0x3883, 0x70) ∧
      specBaudEncode 30000 = some (0x3883, 0x71) ∧
      setBaudRateVals 30000 ≠ natPairAsInt (specBaudEncode 30000) := by
  exact ⟨by decide, by decide, by decide⟩

lemma baudLoopCount_le (d : Nat) : ∀ f, baudLoopCount f d ≤ d := by
  induction d with
  | zero => intro f; simp [baudLoopCount]
  | succ d ih =>
    intro f
    rw [baudLoopCount]
    by_cases h : f.gtInt 0xfff0 = true
    · rw [if_pos h]
      exact Nat.succ_le_succ (ih _)
    · rw [if_neg h]
      exact Nat.zero_le _

/-- Claim C2: the while loop of the encoder executes at most 3 iterations
for every positive bitrate, and when the factor still exceeds 0xFFF0 after
the loop the encoder fails (none, the UnsupportedBaudRate throw) instead
of continuing. -/
theorem baud_encoder_terminates (b : Nat) (_hb : 0 < b) :
    baudLoopCount ⟨1532620800, b⟩ 3 ≤ 3 ∧
      (¬ b = 921600 → (baudLoop ⟨1532620800, b⟩ 3).1.gtInt 0xfff0 = true →
        setBaudRateVals b = none) := by
  refine ⟨baudLoopCount_le 3 _, fun h921 hdiv => ?_⟩
  rw [setBaudRateVals, setBaudRateEnc, if_neg h921]
  dsimp only
  rw [if_pos hdiv]
  rfl

/-- Witness for claim C2 at bitrate 1, which never converges: the loop
stops after its 3 iterations and the encoder fails. -/
theorem baud_encoder_terminates_witness :
    baudLoopCount ⟨1532620800, 1⟩ 3 ≤ 3 ∧ setBaudRateVals 1 = none :=
  ⟨(baud_encoder_terminates 1 (by decide)).1,
    (baud_encoder_terminates 1 (by decide)).2 (by decide) (by decide)⟩

/-- Claim C3: the baud-rate encoder is deterministic and pure: invoked with
the same bitrate from any two driver states, it performs the same register
writes and has the same fail or succeed outcome, because the method reads
no mutable instance state; in particular this holds for states reached by
arbitrary call histories. -/
theorem baud_encoder_pure (s t : DriverState) (b : Nat)
    (b1 b2 : Nat) (calls1 calls2 : List MethodCall) :
    setBaudRateRun s b = setBaudRateRun t b ∧
      setBaudRateRun (List.foldl applyCall (initialState b1) calls1) b =
        setBaudRateRun (List.foldl applyCall (initialState b2) calls2) b :=
  ⟨rfl, rfl⟩

lemma runInit_eval (dtr rts : Bool) (env : Nat → TIn)
    (h0 : (env 0).isResolved = true) (h1 : (env 1).isResolved = true)
    (h2 : (env 2).isResolved = true) (h3 : (env 3).isResolved = true) :
    runInit dtr rts env = (initActionList dtr rts, Except.ok ()) := by
  obtain ⟨r0, hr0⟩ : ∃ r, env 0 = TIn.resolved r := by
    cases h : env 0 with
    | resolved r => exact ⟨r, rfl⟩
    | rejected e => rw [h] at h0; simp [TIn.isResolved] at h0
  obtain ⟨r1, hr1⟩ : ∃ r, env 1 = TIn.resolved r := by
    cases h : env 1 with
    | resolved r => exact ⟨r, rfl⟩
    | rejected e => rw [h] at h1; simp [TIn.isResolved] at h1
  obtain ⟨r2, hr2⟩ : ∃ r, env 2 = TIn.resolved r := by
    cases h : env 2 with
    | resolved r => exact ⟨r, rfl⟩
    | rejected e => rw [h] at h2; simp [TIn.isResolved] at h2
  obtain ⟨r3, hr3⟩ : ∃ r, env 3 = TIn.resolved r := by
    cases h : env 3 with
    | resolved r => exact ⟨r, rfl⟩
    | rejected e => rw [h] at h3; simp [TIn.isResolved] at h3
  have hsb : setBaudActions 9600 =
      ([UsbAction.controlOut 0x9A 0x1312 0xB282,
        UsbAction.controlOut 0x9A 0x0F2C 0x0C], Except.ok ()) := by rfl
  rw [runInit]
  rw [hr0, hr1, hr2, hr3, hsb]
  rfl

/-- Claim C5: with the four verification reads resolving (their contents
irrelevant), init performs exactly the ten register operations of spec
section 4.3 sequentially in this order: read version, serial initiation
(0, 0), the two 9600-baud register writes, read baud-low, write line
control 0xC3, read status 0x0706, serial initiation (0x501F, 0xD90A), the
two 9600-baud register writes again, the control-line write derived from
the current DTR and RTS state, and the final status read. -/
theorem init_ten_steps (dtr rts : Bool) (env : Nat → TIn)
    (h0 : (env 0).isResolved = true) (h1 : (env 1).isResolved = true)
    (h2 : (env 2).isResolved = true) (h3 : (env 3).isResolved = true) :
    runInit dtr rts env = (initActionList dtr rts, Except.ok ()) :=
  runInit_eval dtr rts env h0 h1 h2 h3

/-- Witness for claim C5 with a concrete environment. -/
theorem init_ten_steps_witness :
    runInit true true (fun _ => TIn.resolved ⟨TransferStatus.ok, some ⟨0, [0, 0]⟩⟩) =
      (initActionList true true, Except.ok ()) :=
  init_ten_steps true true _ (by decide) (by decide) (by decide) (by decide)

/-- Claim C4 (amended): checkState reads expectedLength bytes and bases
its boolean on the transfer status, the reply length and the object
identity of the reply buffer (line 80 compares the reply buffer to the
expected array with a strict inequality, which is reference comparison),
never on the byte content; since every reply buffer is a fresh object
distinct from the caller-built expected array, that identity test returns
false on every completed read even when the length matches. The mismatch
stays advisory: checkState only returns the boolean, and init neither
branches on it nor aborts: with the four reads resolved, the trace and
outcome of init are the same whatever the reply objects contain. -/
theorem checkState_advisory (expected : DataChunk) (st : TransferStatus)
    (idr : Nat) (bs1 bs2 : List Nat) (hlen : bs1.length = bs2.length)
    (hid : idr ≠ expected.bufferId) (dtr rts : Bool) (env env2 : Nat → TIn)
    (h0 : (env 0).isResolved = true) (h1 : (env 1).isResolved = true)
    (h2 : (env 2).isResolved = true) (h3 : (env 3).isResolved = true)
    (g0 : (env2 0).isResolved = true) (g1 : (env2 1).isResolved = true)
    (g2 : (env2 2).isResolved = true) (g3 : (env2 3).isResolved = true) :
    checkStateCompare expected ⟨st, some ⟨idr, bs1⟩⟩ =
        checkStateCompare expected ⟨st, some ⟨idr, bs2⟩⟩ ∧
      checkStateCompare expected ⟨st, some ⟨idr, bs1⟩⟩ = false ∧
      runInit dtr rts env = runInit dtr rts env2 := by
  refine ⟨?_, ?_, ?_⟩
  · simp [checkStateCompare, hlen]
  · simp [checkStateCompare, hid]
  · rw [runInit_eval dtr rts env h0 h1 h2 h3,
      runInit_eval dtr rts env2 g0 g1 g2 g3]

/-- Witness for the amended claim C4 at concrete inputs. -/
theorem checkState_advisory_witness :
    (checkStateCompare initExpected1 ⟨TransferStatus.ok, some ⟨7, [255, 0]⟩⟩ =
        checkStateCompare initExpected1 ⟨TransferStatus.ok, some ⟨7, [9, 9]⟩⟩ ∧
      checkStateCompare initExpected1 ⟨TransferStatus.ok, some ⟨7, [255, 0]⟩⟩ = false ∧
      runInit true true (fun _ => TIn.resolved ⟨TransferStatus.ok, some ⟨5, [1, 2]⟩⟩) =
        runInit true true (fun _ => TIn.resolved ⟨TransferStatus.stall, none⟩)) :=
  checkState_advisory initExpected1 TransferStatus.ok 7 [255, 0] [9, 9]
    (by decide) (by decide) true true _ _ (by decide) (by decide) (by decide)
    (by decide) (by decide) (by decide) (by decide) (by decide)

/-- Counterexample for claim C4 as stated: a completed read whose reply
length (and even byte content) equals the expected array still makes
checkState return false, because the code also compares the reply buffer
against the expected array by object identity and the reply buffer is a
fresh object. -/
theorem checkState_not_length_only :
    (⟨7, [255, 0]⟩ : DataChunk).bytes.length = initExpected1.bytes.length ∧
      (⟨7, [255, 0]⟩ : DataChunk).bytes = initExpected1.bytes ∧
      checkStateCompare initExpected1 ⟨TransferStatus.ok, some ⟨7, [255, 0]⟩⟩ = false :=
  ⟨by decide, by decide, by decide⟩

/-- Claim C7 evaluated on the code (code bug): the catch handler tests the
raw indexOf number, which is truthy exactly when it is nonzero. An error
whose message is exactly LIBUSB_TRANSFER_NO_DEVICE gives indexOf 0, so the
handler logs it as an ordinary error, dispatches nothing, leaves isClosing
false and the loop resubmits; an unrelated error such as
LIBUSB_TRANSFER_TIMED_OUT gives indexOf -1, which is truthy, so the
handler dispatches disconnected and sets isClosing, stopping the loop:
the opposite of the claim on both sides. -/
theorem readLoop_removal_check_inverted :
    (readCycle (initialState 9600) (CycleOutcome.rejected noDeviceMarker) =
        (initialState 9600, []) ∧
      resubmits (readCycle (initialState 9600)
        (CycleOutcome.rejected noDeviceMarker)).1 true = true) ∧
      (readCycle (initialState 9600)
          (CycleOutcome.rejected "LIBUSB_TRANSFER_TIMED_OUT".toList) =
        ({ initialState 9600 with isClosing := true }, [DriverEvent.disconnected]) ∧
      resubmits (readCycle (initialState 9600)
        (CycleOutcome.rejected "LIBUSB_TRANSFER_TIMED_OUT".toList)).1 true = false) :=
  ⟨⟨by decide, by decide⟩, by decide, by decide⟩

lemma readLoopChain_succ (opened : Bool) (env : Nat → CycleOutcome)
    (fuel : Nat) (st : DriverState) (k : Nat) :
    readLoopChain opened env (fuel + 1) st k =
      (let c := readCycle st (env k)
       if resubmits c.1 opened then
         let rest := readLoopChain opened env fuel c.1 (k + 1)
         (c.2 ++ rest.1, 1 + rest.2)
       else (c.2, 1)) := rfl

/-- Claim C8: in every cycle, whatever the outcome of the transfer, the
chain submits its next bulk-in transfer exactly when isClosing is false
and the device is still open after the handlers ran; in particular once a
cycle leaves isClosing set, that chain performs no further submission. -/
theorem readLoop_resubmission (opened : Bool) (env : Nat → CycleOutcome)
    (fuel k : Nat) (st : DriverState) :
    (readLoopChain opened env (fuel + 1) st k).2 =
        1 + (if resubmits (readCycle st (env k)).1 opened = true then
          (readLoopChain opened env fuel (readCycle st (env k)).1 (k + 1)).2 else 0) ∧
      ((readCycle st (env k)).1.isClosing = true →
        (readLoopChain opened env (fuel + 1) st k).2 = 1) := by
  constructor
  · rw [readLoopChain_succ]
    dsimp only
    by_cases h : resubmits (readCycle st (env k)).1 opened = true
    · rw [if_pos h, if_pos h]
    · rw [if_neg h, if_neg h]
  · intro h
    rw [readLoopChain_succ]
    dsimp only
    rw [if_neg (by simp [resubmits, h])]

/-- Witness for claim C8: a failing cycle that sets isClosing stops the
chain after its single submission even with plenty of fuel left. -/
theorem readLoop_resubmission_witness :
    (readLoopChain true (fun _ => CycleOutcome.rejected []) 4
        (initialState 9600) 0).2 = 1 :=
  (readLoop_resubmission true (fun _ => CycleOutcome.rejected []) 3 0
    (initialState 9600)).2 (by decide)

/-- Claim C9: write rejects with the no-write-endpoint error and issues no
transfer when the write endpoint is unassigned; with an endpoint it issues
exactly one bulk-out transfer, resolves with a bytes-written count equal
to the input length on success, and rejects with the transport error
otherwise. -/
theorem write_contract (st : DriverState) (n : Nat) (tr : Except Nat Unit) :
    (st.writeEndpoint = none →
        writeRun st n tr = ([], Except.error Err.noWriteEndpoint)) ∧
      ∀ ep, st.writeEndpoint = some ep →
        (writeRun st n tr).1 = [UsbAction.bulkOut ep.num n] ∧
        (tr = Except.ok () → (writeRun st n tr).2 = Except.ok ⟨true, n⟩) ∧
        ∀ e, tr = Except.error e →
          (writeRun st n tr).2 = Except.error (Err.transport e) := by
  constructor
  · intro h
    rw [writeRun, h]
  · intro ep h
    refine ⟨?_, ?_, ?_⟩
    · rw [writeRun, h]
      cases tr <;> rfl
    · intro h2
      rw [writeRun, h, h2]
    · intro e h2
      rw [writeRun, h, h2]

/-- Witness for claim C9 at concrete states. -/
theorem write_contract_witness :
    writeRun (initialState 9600) 5 (Except.ok ()) =
        ([], Except.error Err.noWriteEndpoint) ∧
      (writeRun { initialState 9600 with writeEndpoint := some ⟨2, 32⟩ } 5
          (Except.ok ())).2 = Except.ok ⟨true, 5⟩ :=
  ⟨(write_contract (initialState 9600) 5 (Except.ok ())).1 (by decide),
    ((write_contract { initialState 9600 with writeEndpoint := some ⟨2, 32⟩ } 5
      (Except.ok ())).2 ⟨2, 32⟩ (by decide)).2.1 rfl⟩

lemma readLoopStart_preserves_lines (st : DriverState) (cr : Option Nat) :
    (readLoopStart st cr).1.dtr = st.dtr ∧ (readLoopStart st cr).1.rts = st.rts := by
  rw [readLoopStart]
  cases st.readEndpoint with
  | none =>
    rw [closeRun.eq_def]
    cases cr with
    | some e => exact ⟨rfl, rfl⟩
    | none => exact ⟨rfl, rfl⟩
  | some ep => exact ⟨rfl, rfl⟩

lemma openBody_preserves_lines (st : DriverState) (env : OpenEnv) :
    (openBody st env).1.dtr = st.dtr ∧ (openBody st env).1.rts = st.rts := by
  rw [openBody]
  cases ho : env.openRejects with
  | some e => exact ⟨rfl, rfl⟩
  | none =>
    by_cases hi : env.hasInterfaces = true
    · rw [if_pos hi]
      dsimp only
      rcases hri : runInit st.dtr st.rts env.initEnv with ⟨acts1, r1⟩
      cases r1 with
      | error e => exact ⟨rfl, rfl⟩
      | ok u =>
        rcases hsb : setBaudActions st.bitrate with ⟨acts2, r2⟩
        cases r2 with
        | error e => exact ⟨rfl, rfl⟩
        | ok u2 =>
          rcases hrl : readLoopStart
              { st with
                readEndpoint := (discoverEndpoints env.endpoints).1,
                writeEndpoint := (discoverEndpoints env.endpoints).2,
                isClosing := false } env.closeRejects with ⟨st3, acts3, evs3, r3⟩
          have hp := readLoopStart_preserves_lines
            { st with
              readEndpoint := (discoverEndpoints env.endpoints).1,
              writeEndpoint := (discoverEndpoints env.endpoints).2,
              isClosing := false } env.closeRejects
          rw [hrl] at hp
          exact hp
    · rw [if_neg hi]
      exact ⟨rfl, rfl⟩

lemma readCycle_preserves_lines (st : DriverState) (out : CycleOutcome) :
    (readCycle st out).1.dtr = st.dtr ∧ (readCycle st out).1.rts = st.rts := by
  rw [readCycle.eq_def]
  cases out with
  | resolved d =>
    cases d with
    | some c =>
      dsimp only
      by_cases hl : c.bytes.length ≠ 0
      · rw [if_pos hl]
        exact ⟨rfl, rfl⟩
      · rw [if_neg hl]
        exact ⟨rfl, rfl⟩
    | none => exact ⟨rfl, rfl⟩
  | rejected msg =>
    dsimp only
    rw [handleReadFailure.eq_def]
    by_cases hz : jsIndexOf msg noDeviceMarker ≠ 0
    · rw [if_pos hz]
      exact ⟨rfl, rfl⟩
    · rw [if_neg hz]
      exact ⟨rfl, rfl⟩

lemma applyCall_preserves_lines (st : DriverState) (c : MethodCall) :
    (applyCall st c).dtr = st.dtr ∧ (applyCall st c).rts = st.rts := by
  cases c with
  | openCall env =>
    have h := openBody_preserves_lines st env
    rw [applyCall, openRun]
    rcases hb : openBody st env with ⟨st1, acts, evs, r⟩
    rw [hb] at h
    cases r with
    | ok u => exact h
    | error e => exact h
  | cycleCall out => exact readCycle_preserves_lines st out
  | closeCall cr =>
    rw [applyCall, closeRun.eq_def]
    cases cr with
    | some e => exact ⟨rfl, rfl⟩
    | none => exact ⟨rfl, rfl⟩
  | writeCall n tr => exact ⟨rfl, rfl⟩
  | setBaudCall r => exact ⟨rfl, rfl⟩
  | setLinesCall => exact ⟨rfl, rfl⟩

/-- Claim C10: from the constructor state onward, no method assigns dtr or
rts, so they stay true for the whole lifetime of the instance whatever
sequence of activities runs, and every setControlLines call therefore
sends the same register value, the bitwise complement of
SCL_DTR OR SCL_RTS = 0x60, to request 0xA4 with index 0. -/
theorem dtr_rts_constant (b : Nat) (calls : List MethodCall) :
    (List.foldl applyCall (initialState b) calls).dtr = true ∧
      (List.foldl applyCall (initialState b) calls).rts = true ∧
      setControlLinesAction (List.foldl applyCall (initialState b) calls) =
        UsbAction.controlOut 0xA4 (jsBitNot 0x60) 0 := by
  have key : ∀ (cs : List MethodCall) (st : DriverState),
      st.dtr = true → st.rts = true →
      (List.foldl applyCall st cs).dtr = true ∧
        (List.foldl applyCall st cs).rts = true := by
    intro cs
    induction cs with
    | nil => intro st h1 h2; exact ⟨h1, h2⟩
    | cons c rest ih =>
      intro st h1 h2
      have hc := applyCall_preserves_lines st c
      exact ih _ (by rw [hc.1, h1]) (by rw [hc.2, h2])
  obtain ⟨h1, h2⟩ := key calls (initialState b) rfl rfl
  refine ⟨h1, h2, ?_⟩
  rw [setControlLinesAction, h1, h2]
  rfl

lemma readLoopStart_events (st : DriverState) (cr : Option Nat) :
    (readLoopStart st cr).2.2.1 = [] ∨
      (readLoopStart st cr).2.2.1 = [DriverEvent.disconnected] := by
  rw [readLoopStart.eq_def]
  cases st.readEndpoint with
  | none =>
    rw [closeRun.eq_def]
    cases cr with
    | some e => right; rfl
    | none => right; rfl
  | some ep => left; rfl

lemma openBody_events (st : DriverState) (env : OpenEnv) :
    (openBody st env).2.2.1 = [] ∨
      (openBody st env).2.2.1 = [DriverEvent.disconnected] := by
  rw [openBody.eq_def]
  cases ho : env.openRejects with
  | some e => left; rfl
  | none =>
    by_cases hi : env.hasInterfaces = true
    · rw [if_pos hi]
      dsimp only
      rcases hri : runInit st.dtr st.rts env.initEnv with ⟨acts1, r1⟩
      cases r1 with
      | error e => left; rfl
      | ok u =>
        rcases hsb : setBaudActions st.bitrate with ⟨acts2, r2⟩
        cases r2 with
        | error e => left; rfl
        | ok u2 =>
          rcases hrl : readLoopStart
              { st with
                readEndpoint := (discoverEndpoints env.endpoints).1,
                writeEndpoint := (discoverEndpoints env.endpoints).2,
                isClosing := false } env.closeRejects with ⟨st3, acts3, evs3, r3⟩
          have he := readLoopStart_events
            { st with
              readEndpoint := (discoverEndpoints env.endpoints).1,
              writeEndpoint := (discoverEndpoints env.endpoints).2,
              isClosing := false } env.closeRejects
          rw [hrl] at he
          exact he
    · rw [if_neg hi]
      left
      rfl

lemma openBody_ok_shape (st : DriverState) (env : OpenEnv) :
    ∀ u, (openBody st env).2.2.2 = Except.ok u →
      ∃ tail, (openBody st env).2.1 =
        ((runInit st.dtr st.rts env.initEnv).1 ++ (setBaudActions st.bitrate).1) ++ tail := by
  rw [openBody.eq_def]
  cases ho : env.openRejects with
  | some e => intro u hu; exact absurd hu (by simp)
  | none =>
    by_cases hi : env.hasInterfaces = true
    · rw [if_pos hi]
      dsimp only
      rcases hri : runInit st.dtr st.rts env.initEnv with ⟨acts1, r1⟩
      cases r1 with
      | error e => intro u hu; exact absurd hu (by simp)
      | ok uu =>
        rcases hsb : setBaudActions st.bitrate with ⟨acts2, r2⟩
        cases r2 with
        | error e => intro u hu; exact absurd hu (by simp)
        | ok uu2 =>
          rcases hrl : readLoopStart
              { st with
                readEndpoint := (discoverEndpoints env.endpoints).1,
                writeEndpoint := (discoverEndpoints env.endpoints).2,
                isClosing := false } env.closeRejects with ⟨st3, acts3, evs3, r3⟩
          intro u hu
          exact ⟨acts3, rfl⟩
    · rw [if_neg hi]
      intro u hu
      exact absurd hu (by simp)

/-- Claim C6: open runs init, then applies the constructor-requested baud
rate, then clears isClosing and starts the read loop: on a successful body
the action trace is the init trace followed by the bitrate register writes
followed by the read-loop start actions, the event trace counts exactly
one ready and no error; when any step of the body throws, the event trace
counts no ready and exactly one error event carrying the thrown detail. -/
theorem open_event_contract (st : DriverState) (env : OpenEnv) :
    ((openBody st env).2.2.2 = Except.ok () →
        ((openRun st env).2.2.count DriverEvent.ready = 1 ∧
          (∀ e, (openRun st env).2.2.count (DriverEvent.error e) = 0) ∧
          ∃ tail, (openRun st env).2.1 =
            ((runInit st.dtr st.rts env.initEnv).1 ++
              (setBaudActions st.bitrate).1) ++ tail)) ∧
      ∀ e, (openBody st env).2.2.2 = Except.error e →
        ((openRun st env).2.2.count DriverEvent.ready = 0 ∧
          (openRun st env).2.2.count (DriverEvent.error e) = 1) := by
  have hev := openBody_events st env
  have hsh := openBody_ok_shape st env
  rw [openRun.eq_def]
  rcases hb : openBody st env with ⟨st1, acts, evs, r⟩
  rw [hb] at hev hsh
  dsimp only at hev hsh ⊢
  cases r with
  | ok u =>
    cases u
    constructor
    · intro _
      refine ⟨?_, ?_, hsh () rfl⟩
      · rcases hev with h | h <;> subst h <;> simp
      · intro e
        rcases hev with h | h <;> subst h <;> simp
    · intro e he
      exact absurd he (by simp)
  | error e0 =>
    constructor
    · intro h
      exact absurd h (by simp)
    · intro e he
      have heq : e0 = e := by
        injection he
      subst heq
      constructor
      · rcases hev with h | h <;> subst h <;> simp
      · rcases hev with h | h <;> subst h <;> simp

/-- Witness for claim C6: with every transport promise resolving, open
dispatches exactly one ready event and no error event. -/
theorem open_event_contract_witness :
    (openRun (initialState 9600) witnessOpenEnv).2.2.count DriverEvent.ready = 1 ∧
      (openRun (initialState 9600) witnessOpenEnv).2.2.count
        (DriverEvent.error Err.typeErrorNoInterface) = 0 :=
  ⟨((open_event_contract (initialState 9600) witnessOpenEnv).1 rfl).1,
    ((open_event_contract (initialState 9600) witnessOpenEnv).1 rfl).2.1
      Err.typeErrorNoInterface⟩
